import Mathlib

/-!
Verification of the validation-gated ingestion pipeline of `financial-intel`.

Shallow embedding of:
- `src/scripts/pipelines/daily_eod_pipeline.py`
  (`DataIngestionOrchestrator`, `DataQualityValidator`, `main`)
- `src/backend/api/services/pipeline_service.py` (`PipelineService`, `PipelineStatus`)
- `src/backend/clients/yfinance_client.py` (`YFinanceClient` rate limiter)

External effects (Supabase queries, yfinance calls, the asyncio clock) are
modelled as explicit values and oracles passed to the embedded functions.
-/

namespace FinancialIntel

/-! ## Data ingestion layer (`daily_eod_pipeline.py`, lines 46-138) -/

/-- One row returned by `fetch_active_assets`, which selects
`symbol,yfinance_ticker` from the `assets` table.  `yfinance_ticker` may be
absent (NULL); `symbol` is always present. -/
structure Asset where
  symbol : String
  yfinance_ticker : Option String
deriving Repr, DecidableEq

/-- `a.get("yfinance_ticker") or a["symbol"]` (line 101): Python `or` falls
back to `symbol` when the ticker is missing or the empty string (both falsy). -/
def assetFetchSymbol (a : Asset) : String :=
  match a.yfinance_ticker with
  | none => a.symbol
  | some t => if t = "" then a.symbol else t

/-- The orchestrator's `self.stats` dict (lines 56-62). -/
structure IngestionStats where
  total_assets : Nat
  successful : Nat
  failed : Nat
  skipped : Nat
  total_records : Nat
deriving Repr, DecidableEq

/-- The stats every `DataIngestionOrchestrator` starts with (`__init__`). -/
def initStats : IngestionStats :=
  { total_assets := 0, successful := 0, failed := 0, skipped := 0, total_records := 0 }

/-- One entry of `summary["results"]` as read on lines 113-115:
`status = res.get("status")`, `records = res.get("records_stored", 0)`. -/
structure SymbolResult where
  status : Option String
  records_stored : Nat

/-- Outcome of one awaited `run_multi_fetch_store` group call (lines 104-111):
either the call raises, or it returns a summary whose `"results"` maps each
symbol to an optional per-symbol result (`res.get(sym, {})` yields `none`
when the symbol is absent). -/
inductive GroupOutcome where
  | raised
  | summary (results : String → Option SymbolResult)

/-- `range(0, len(xs), n)` slicing: consecutive chunks of size `n`
(`xs[i : i + n]`).  Used with `n = BATCH_SIZE = 10` (line 90) and
`n = GROUP_SIZE = 5` (line 98). -/
def chunksOf (n : Nat) : List α → List (List α)
  | [] => []
  | x :: rest => (x :: rest.take (n - 1)) :: chunksOf n (rest.drop (n - 1))
termination_by l => l.length
decreasing_by simp [List.length_drop]; omega

/-- Stats update for one symbol of a successfully returned group call
(lines 112-125). -/
def applySymbol (results : String → Option SymbolResult) (s : IngestionStats)
    (sym : String) : IngestionStats :=
  if ((results sym).bind SymbolResult.status) = some "success" then
    { s with successful := s.successful + 1,
             total_records :=
               s.total_records + ((results sym).map SymbolResult.records_stored).getD 0 }
  else if ((results sym).bind SymbolResult.status) = some "skipped" then
    { s with skipped := s.skipped + 1 }
  else
    { s with failed := s.failed + 1 }

/-- The `try`/`except` around one group call (lines 103-128): a summary is
folded symbol by symbol; an exception marks the whole group failed. -/
def applyGroup (out : GroupOutcome) (syms : List String) (s : IngestionStats) :
    IngestionStats :=
  match out with
  | .summary results => syms.foldl (applySymbol results) s
  | .raised => { s with failed := s.failed + syms.length }

/-- The flattened fetch groups of one run, in call order: batches of
`BATCH_SIZE = 10`, each split into groups of `GROUP_SIZE = 5`, each mapped to
its `group_symbols` (lines 90-102). -/
def fetchGroups (assets : List Asset) : List (List String) :=
  (((chunksOf 10 assets).map (chunksOf 5)).flatten).map (fun g => g.map assetFetchSymbol)

/-- Sequential processing of the remaining groups, where `fetch k` is the
outcome of the `k`-th group call of the run. -/
def runGroups (fetch : Nat → GroupOutcome) :
    Nat → List (List String) → IngestionStats → IngestionStats
  | _, [], s => s
  | k, g :: rest, s => runGroups fetch (k + 1) rest (applyGroup (fetch k) g s)

/-- `ingest_daily_data(assets)` (lines 75-138): sets
`stats["total_assets"] = len(assets)` and processes every group sequentially,
starting from the orchestrator's current stats `s0`. -/
def ingestDailyData (fetch : Nat → GroupOutcome) (assets : List Asset)
    (s0 : IngestionStats) : IngestionStats :=
  runGroups fetch 0 (fetchGroups assets) { s0 with total_assets := assets.length }

/-- `successful + failed + skipped`, the per-symbol outcome counters. -/
def countedOutcomes (s : IngestionStats) : Nat :=
  s.successful + s.failed + s.skipped

/-! ### Helper lemmas about the ingestion fold -/

theorem chunksOf_length_sum (n : Nat) (xs : List α) :
    ((chunksOf n xs).map List.length).sum = xs.length := by
  match xs with
  | [] => simp [chunksOf]
  | x :: rest =>
    have ih := chunksOf_length_sum n (rest.drop (n - 1))
    rw [chunksOf]
    simp only [List.map_cons, List.sum_cons, List.length_cons, List.length_take]
    rw [ih]
    simp only [List.length_drop]
    omega
termination_by xs.length
decreasing_by simp [List.length_drop]; omega

theorem nestedChunks_length_sum (bs : List (List Asset)) :
    (((bs.map (chunksOf 5)).flatten).map List.length).sum = (bs.map List.length).sum := by
  induction bs with
  | nil => simp
  | cons b tl ih =>
    simp only [List.map_cons, List.flatten_cons, List.map_append, List.sum_append, ih,
      List.sum_cons]
    rw [chunksOf_length_sum]

theorem fetchGroups_length_sum (assets : List Asset) :
    ((fetchGroups assets).map List.length).sum = assets.length := by
  unfold fetchGroups
  rw [List.map_map]
  have hcomp : (List.length ∘ fun g : List Asset => g.map assetFetchSymbol) = List.length := by
    funext g; simp
  rw [hcomp, nestedChunks_length_sum]
  rw [chunksOf_length_sum]

theorem applySymbol_counted (results : String → Option SymbolResult)
    (s : IngestionStats) (sym : String) :
    countedOutcomes (applySymbol results s sym) = countedOutcomes s + 1 := by
  unfold applySymbol countedOutcomes
  split_ifs <;> simp <;> omega

theorem applySymbol_total_assets (results : String → Option SymbolResult)
    (s : IngestionStats) (sym : String) :
    (applySymbol results s sym).total_assets = s.total_assets := by
  unfold applySymbol
  split_ifs <;> rfl

theorem foldl_applySymbol_counted (results : String → Option SymbolResult) :
    ∀ (syms : List String) (s : IngestionStats),
      countedOutcomes (syms.foldl (applySymbol results) s) =
        countedOutcomes s + syms.length := by
  intro syms
  induction syms with
  | nil => intro s; simp
  | cons a tl ih =>
    intro s
    simp only [List.foldl_cons, List.length_cons]
    rw [ih, applySymbol_counted]
    omega

theorem foldl_applySymbol_total_assets (results : String → Option SymbolResult) :
    ∀ (syms : List String) (s : IngestionStats),
      (syms.foldl (applySymbol results) s).total_assets = s.total_assets := by
  intro syms
  induction syms with
  | nil => intro s; rfl
  | cons a tl ih =>
    intro s
    simp only [List.foldl_cons]
    rw [ih, applySymbol_total_assets]

theorem applyGroup_counted (out : GroupOutcome) (syms : List String)
    (s : IngestionStats) :
    countedOutcomes (applyGroup out syms s) = countedOutcomes s + syms.length := by
  cases out with
  | summary results => exact foldl_applySymbol_counted results syms s
  | raised => unfold applyGroup countedOutcomes; simp; omega

theorem applyGroup_total_assets (out : GroupOutcome) (syms : List String)
    (s : IngestionStats) :
    (applyGroup out syms s).total_assets = s.total_assets := by
  cases out with
  | summary results => exact foldl_applySymbol_total_assets results syms s
  | raised => rfl

theorem runGroups_counted (fetch : Nat → GroupOutcome) :
    ∀ (gs : List (List String)) (k : Nat) (s : IngestionStats),
      countedOutcomes (runGroups fetch k gs s) =
        countedOutcomes s + (gs.map List.length).sum := by
  intro gs
  induction gs with
  | nil => intro k s; simp [runGroups]
  | cons g tl ih =>
    intro k s
    simp only [runGroups, List.map_cons, List.sum_cons]
    rw [ih, applyGroup_counted]
    omega

theorem runGroups_total_assets (fetch : Nat → GroupOutcome) :
    ∀ (gs : List (List String)) (k : Nat) (s : IngestionStats),
      (runGroups fetch k gs s).total_assets = s.total_assets := by
  intro gs
  induction gs with
  | nil => intro k s; rfl
  | cons g tl ih =>
    intro k s
    simp only [runGroups]
    rw [ih, applyGroup_total_assets]

/-! ### Claim theorems C1, C2 -/

/-- Claim C1: for every run of `ingest_daily_data` over any asset list and any
behaviour of the group calls, the returned stats satisfy
`successful + failed + skipped = total_assets`, and `total_assets` is the
length of the input asset list.  The run starts from the zeroed stats every
`DataIngestionOrchestrator` is constructed with. -/
theorem ingestion_stats_partition (fetch : Nat → GroupOutcome) (assets : List Asset) :
    (ingestDailyData fetch assets initStats).successful +
        (ingestDailyData fetch assets initStats).failed +
        (ingestDailyData fetch assets initStats).skipped =
      (ingestDailyData fetch assets initStats).total_assets ∧
    (ingestDailyData fetch assets initStats).total_assets = assets.length := by
  have hc := runGroups_counted fetch (fetchGroups assets) 0
    { initStats with total_assets := assets.length }
  have ht := runGroups_total_assets fetch (fetchGroups assets) 0
    { initStats with total_assets := assets.length }
  rw [fetchGroups_length_sum] at hc
  unfold ingestDailyData
  constructor
  · have : countedOutcomes { initStats with total_assets := assets.length } = 0 := rfl
    rw [this] at hc
    unfold countedOutcomes at hc
    rw [hc, ht]
    simp [initStats]
  · rw [ht]

theorem runGroups_all_raised :
    ∀ (gs : List (List String)) (k : Nat) (s : IngestionStats),
      runGroups (fun _ => GroupOutcome.raised) k gs s =
        { s with failed := s.failed + (gs.map List.length).sum } := by
  intro gs
  induction gs with
  | nil => intro k s; simp [runGroups]
  | cons g tl ih =>
    intro k s
    simp only [runGroups, applyGroup, List.map_cons, List.sum_cons]
    rw [ih]
    simp [Nat.add_assoc]

/-- Claim C2: `PipelineService` defines no method `run_multi_fetch_store`, so
every group call raises `AttributeError` and is caught by the group-level
handler (line 126); hence for every non-empty asset list the run completes
with `failed = total_assets = len(assets)` and all other counters zero.
The always-raising oracle `fun _ => GroupOutcome.raised` is the faithful model
of calling the missing method. -/
theorem ingestion_all_groups_raise (a : Asset) (rest : List Asset) :
    ingestDailyData (fun _ => GroupOutcome.raised) (a :: rest) initStats =
      { total_assets := (a :: rest).length, successful := 0,
        failed := (a :: rest).length, skipped := 0, total_records := 0 } := by
  unfold ingestDailyData
  rw [runGroups_all_raised]
  simp [initStats, fetchGroups_length_sum]

theorem runGroups_append (fetch : Nat → GroupOutcome) :
    ∀ (xs ys : List (List String)) (k : Nat) (s : IngestionStats),
      runGroups fetch k (xs ++ ys) s =
        runGroups fetch (k + xs.length) ys (runGroups fetch k xs s) := by
  intro xs
  induction xs with
  | nil => intro ys k s; simp [runGroups]
  | cons g tl ih =>
    intro ys k s
    have hlen : k + (g :: tl).length = k + 1 + tl.length := by
      simp only [List.length_cons]
      omega
    rw [hlen]
    show runGroups fetch (k + 1) (tl ++ ys) (applyGroup (fetch k) g s) =
      runGroups fetch (k + 1 + tl.length) ys (runGroups fetch k (g :: tl) s)
    rw [ih]
    rfl

/-- Claim C4: if the `k`-th group call of a run raises, the run is exactly:
process the groups before `k`, then add the size of group `k` to `failed`
(and change nothing else), then continue with the groups after `k`.  No
group-level exception aborts the run or escapes `ingest_daily_data` (which
is a total function of the group outcomes). -/
theorem group_failure_isolation (fetch : Nat → GroupOutcome) (assets : List Asset)
    (s0 : IngestionStats) (k : Nat) (g : List String)
    (hg : (fetchGroups assets)[k]? = some g) (hr : fetch k = GroupOutcome.raised) :
    ingestDailyData fetch assets s0 =
      runGroups fetch (k + 1) ((fetchGroups assets).drop (k + 1))
        (let sb := runGroups fetch 0 ((fetchGroups assets).take k)
          { s0 with total_assets := assets.length }
         { sb with failed := sb.failed + g.length }) := by
  obtain ⟨hk, hkg⟩ := List.getElem?_eq_some_iff.mp hg
  have hsplit : fetchGroups assets =
      (fetchGroups assets).take k ++ g :: (fetchGroups assets).drop (k + 1) := by
    conv_lhs => rw [← List.take_append_drop k (fetchGroups assets)]
    rw [List.drop_eq_getElem_cons hk, hkg]
  have hlen : ((fetchGroups assets).take k).length = k := by
    rw [List.length_take]
    omega
  unfold ingestDailyData
  conv_lhs => rw [hsplit]
  rw [runGroups_append, hlen]
  simp only [runGroups, Nat.zero_add, hr, applyGroup]

/-- Witness for C4 at a concrete input: one asset, one group of one symbol,
whose call raises. -/
theorem group_failure_isolation_witness :
    ((fetchGroups [Asset.mk "A" none])[0]? = some ["A"]) ∧
    ((fun _ : Nat => GroupOutcome.raised) 0 = GroupOutcome.raised) ∧
    ingestDailyData (fun _ => GroupOutcome.raised) [Asset.mk "A" none] initStats =
      runGroups (fun _ => GroupOutcome.raised) (0 + 1)
        ((fetchGroups [Asset.mk "A" none]).drop (0 + 1))
        (let sb := runGroups (fun _ => GroupOutcome.raised) 0
          ((fetchGroups [Asset.mk "A" none]).take 0)
          { initStats with total_assets := [Asset.mk "A" none].length }
         { sb with failed := sb.failed + (["A"] : List String).length }) :=
  ⟨by simp [fetchGroups, chunksOf, assetFetchSymbol], rfl,
    group_failure_isolation (fun _ => GroupOutcome.raised) [Asset.mk "A" none]
      initStats 0 ["A"] (by simp [fetchGroups, chunksOf, assetFetchSymbol]) rfl⟩

/-! ## Data validation layer (`daily_eod_pipeline.py`, lines 145-371) -/

/-- One `price_history` row as seen by the validator: the age of its
timestamp relative to "now" (in hours, may be negative for future
timestamps) and whether its `close` column is NULL. -/
structure PriceRow where
  ageHours : ℚ
  closeIsNull : Bool
deriving Repr, DecidableEq

/-- The storage state the validator queries: the `price_history` table and
the count of rows of `assets` with `is_active = 1`. -/
structure Storage where
  rows : List PriceRow
  activeAssets : Nat
deriving Repr, DecidableEq

def MIN_DATA_POINTS_REQUIRED : Nat := 5

def MAX_MISSING_RATIO : ℚ := 1 / 10

def MIN_ASSETS_REQUIRED : Nat := 50

/-- Count of `price_history` rows with `timestamp ≥ now - 7 days`, i.e. age
at most `168` hours (the `.gte` filter used on lines 210-214 and 308-312). -/
def recentCount (s : Storage) : Nat :=
  (s.rows.filter (fun r => decide (r.ageHours ≤ 168))).length

/-- Count of rows with a NULL `close` anywhere in `price_history`: the query
on lines 301-303 has no timestamp filter. -/
def nullCloseCount (s : Storage) : Nat :=
  (s.rows.filter (fun r => r.closeIsNull)).length

/-- Age of the most recent timestamp (the `order desc, limit 1` query on
lines 256-258): the minimum age over all rows, or `none` if the table is
empty. -/
def latestAgeHours (s : Storage) : Option ℚ :=
  match s.rows with
  | [] => none
  | r :: rest => some (rest.foldl (fun m x => min m x.ageHours) r.ageHours)

/-- One entry of `validation_results["checks"]`. -/
structure CheckResult where
  passed : Bool
  details : String
deriving Repr, DecidableEq

/-- The validator's `self.validation_results` (lines 153-158), with the four
fixed check names as fields. -/
structure ValidationResults where
  passed : Bool
  completeness : Option CheckResult
  freshness : Option CheckResult
  quality : Option CheckResult
  asset_coverage : Option CheckResult
  errors : List String
  warnings : List String
deriving Repr, DecidableEq

def initValidationResults : ValidationResults :=
  { passed := false, completeness := none, freshness := none, quality := none,
    asset_coverage := none, errors := [], warnings := [] }

/-- `checks.get(name, {}).get("passed", False)` (line 173). -/
def checkPassed (c : Option CheckResult) : Bool :=
  (c.map CheckResult.passed).getD false

/-- Fault injection for the `except` branches: `some e` models the
underlying Supabase query of that check raising with message `e`. -/
structure QueryFaults where
  completeness : Option String
  freshness : Option String
  quality : Option String
  coverage : Option String

/-- `_check_data_completeness` (lines 204-249).  `int(expected_records * 0.8)`
is the floor of `expected_records * 4/5`, i.e. `(expected_records * 4) / 5`
in natural-number division. -/
def checkDataCompleteness (s : Storage) (fault : Option String)
    (r : ValidationResults) : ValidationResults :=
  match fault with
  | some e =>
    { r with completeness := some ⟨false, e⟩,
             errors := r.errors ++ [s!"Completeness check error: {e}"] }
  | none =>
    let total_records := recentCount s
    let expected_records := min s.activeAssets MIN_ASSETS_REQUIRED * MIN_DATA_POINTS_REQUIRED
    if total_records ≥ expected_records * 4 / 5 then
      { r with completeness := some ⟨true, s!"{total_records} recent records found"⟩ }
    else
      { r with completeness := some ⟨false, s!"Only {total_records} records found"⟩,
               errors := r.errors ++ [s!"Insufficient data points: {total_records}"] }

/-- `_check_data_freshness` (lines 251-294). -/
def checkDataFreshness (s : Storage) (fault : Option String)
    (r : ValidationResults) : ValidationResults :=
  match fault with
  | some e =>
    { r with freshness := some ⟨false, e⟩,
             errors := r.errors ++ [s!"Freshness check error: {e}"] }
  | none =>
    match latestAgeHours s with
    | some age_hours =>
      if age_hours ≤ 48 then
        { r with freshness := some ⟨true, s!"Latest data is {age_hours} hours old"⟩ }
      else
        { r with freshness := some ⟨false, s!"Data is {age_hours} hours old"⟩,
                 errors := r.errors ++ [s!"Stale data: {age_hours} hours old"] }
    | none =>
      { r with freshness := some ⟨false, "No data found in price_history"⟩,
               errors := r.errors ++ ["No data in price_history table"] }

/-- `total_count = total_response.count or 1` (line 314): the trailing-window
row count, replaced by `1` when it is zero. -/
def qualityTotalCount (s : Storage) : Nat :=
  if recentCount s = 0 then 1 else recentCount s

/-- `null_ratio = null_count / total_count if total_count > 0 else 0`
(line 315): whole-table NULL-close count over the trailing-window row count. -/
def nullRatio (s : Storage) : ℚ :=
  if qualityTotalCount s > 0 then (nullCloseCount s : ℚ) / (qualityTotalCount s : ℚ)
  else 0

/-- `_check_data_quality` (lines 296-336). -/
def checkDataQuality (s : Storage) (fault : Option String)
    (r : ValidationResults) : ValidationResults :=
  match fault with
  | some e =>
    { r with quality := some ⟨true, e⟩,
             warnings := r.warnings ++ [s!"Quality check error: {e}"] }
  | none =>
    if nullRatio s ≤ MAX_MISSING_RATIO then
      { r with quality := some ⟨true, s!"Null ratio: {nullRatio s}"⟩ }
    else
      { r with quality := some ⟨true, s!"Null ratio: {nullRatio s}"⟩,
               warnings := r.warnings ++ [s!"High null ratio: {nullRatio s}"] }

/-- `_check_asset_coverage` (lines 338-371). -/
def checkAssetCoverage (s : Storage) (fault : Option String)
    (r : ValidationResults) : ValidationResults :=
  match fault with
  | some e =>
    { r with asset_coverage := some ⟨false, e⟩,
             errors := r.errors ++ [s!"Asset coverage error: {e}"] }
  | none =>
    if s.activeAssets ≥ MIN_ASSETS_REQUIRED then
      { r with asset_coverage := some ⟨true, s!"{s.activeAssets} active assets found"⟩ }
    else
      { r with asset_coverage := some ⟨false, s!"Only {s.activeAssets} active assets"⟩,
               errors := r.errors ++
                 [s!"Insufficient active assets: {s.activeAssets}/{MIN_ASSETS_REQUIRED}"] }

/-- `validate_all` (lines 160-202): run the four checks in order, then set
`passed` from the three critical checks (`completeness`, `freshness`,
`asset_coverage`). -/
def validateAll (s : Storage) (f : QueryFaults) : ValidationResults :=
  let r1 := checkDataCompleteness s f.completeness initValidationResults
  let r2 := checkDataFreshness s f.freshness r1
  let r3 := checkDataQuality s f.quality r2
  let r4 := checkAssetCoverage s f.coverage r3
  { r4 with passed :=
      checkPassed r4.completeness && checkPassed r4.freshness &&
        checkPassed r4.asset_coverage }

/-- Modelled from the spec's words, for comparison with `validateAll`:
the same run with the `quality` check skipped entirely ("quality is
explicitly excluded from the aggregate"). -/
def validateAllSkippingQuality (s : Storage) (f : QueryFaults) : ValidationResults :=
  let r1 := checkDataCompleteness s f.completeness initValidationResults
  let r2 := checkDataFreshness s f.freshness r1
  let r4 := checkAssetCoverage s f.coverage r2
  { r4 with passed :=
      checkPassed r4.completeness && checkPassed r4.freshness &&
        checkPassed r4.asset_coverage }

/-- Modelled from the spec's words, for comparison with `nullRatio`: the
ratio of NULL-close rows *within the trailing 7-day window* to total rows in
that same window. -/
def specWindowedNullRatio (s : Storage) : ℚ :=
  let recent := s.rows.filter (fun r => decide (r.ageHours ≤ 168))
  ((recent.filter (fun r => r.closeIsNull)).length : ℚ) / (recent.length : ℚ)

/-! ### Helper lemmas about the checks -/

theorem checkDataQuality_completeness (s : Storage) (fq : Option String)
    (r : ValidationResults) :
    (checkDataQuality s fq r).completeness = r.completeness := by
  cases fq with
  | some e => rfl
  | none => simp only [checkDataQuality]; split_ifs <;> rfl

theorem checkDataQuality_freshness (s : Storage) (fq : Option String)
    (r : ValidationResults) :
    (checkDataQuality s fq r).freshness = r.freshness := by
  cases fq with
  | some e => rfl
  | none => simp only [checkDataQuality]; split_ifs <;> rfl

theorem checkDataQuality_asset_coverage (s : Storage) (fq : Option String)
    (r : ValidationResults) :
    (checkDataQuality s fq r).asset_coverage = r.asset_coverage := by
  cases fq with
  | some e => rfl
  | none => simp only [checkDataQuality]; split_ifs <;> rfl

theorem checkAssetCoverage_completeness (s : Storage) (fc : Option String)
    (r : ValidationResults) :
    (checkAssetCoverage s fc r).completeness = r.completeness := by
  cases fc with
  | some e => rfl
  | none => simp only [checkAssetCoverage]; split_ifs <;> rfl

theorem checkAssetCoverage_freshness (s : Storage) (fc : Option String)
    (r : ValidationResults) :
    (checkAssetCoverage s fc r).freshness = r.freshness := by
  cases fc with
  | some e => rfl
  | none => simp only [checkAssetCoverage]; split_ifs <;> rfl

theorem checkAssetCoverage_asset_coverage_ext (s : Storage) (fc : Option String)
    (r r' : ValidationResults) :
    (checkAssetCoverage s fc r).asset_coverage =
      (checkAssetCoverage s fc r').asset_coverage := by
  cases fc with
  | some e => rfl
  | none => simp only [checkAssetCoverage]; split_ifs <;> rfl

theorem qualityTotalCount_pos (s : Storage) : 0 < qualityTotalCount s := by
  unfold qualityTotalCount
  split <;> omega

/-! ### Claim theorems C3, C5, C6, C7 -/

/-- Claim C3: `validate_all` sets the aggregate `passed` to true iff the
`completeness`, `freshness` and `asset_coverage` checks all passed, and the
quality check has no effect on the aggregate: for any storage state and any
fault injected into the quality check's query, the aggregate equals the one
of a run with the quality check skipped entirely. -/
theorem validate_all_aggregate (s : Storage) (f : QueryFaults) :
    ((validateAll s f).passed =
      (checkPassed (validateAll s f).completeness &&
        checkPassed (validateAll s f).freshness &&
        checkPassed (validateAll s f).asset_coverage)) ∧
    (∀ fq : Option String,
      (validateAll s { f with quality := fq }).passed =
        (validateAllSkippingQuality s f).passed) := by
  refine ⟨rfl, ?_⟩
  intro fq
  show (checkPassed (checkAssetCoverage s f.coverage (checkDataQuality s fq
        (checkDataFreshness s f.freshness
          (checkDataCompleteness s f.completeness initValidationResults)))).completeness &&
      checkPassed (checkAssetCoverage s f.coverage (checkDataQuality s fq
        (checkDataFreshness s f.freshness
          (checkDataCompleteness s f.completeness initValidationResults)))).freshness &&
      checkPassed (checkAssetCoverage s f.coverage (checkDataQuality s fq
        (checkDataFreshness s f.freshness
          (checkDataCompleteness s f.completeness initValidationResults)))).asset_coverage) =
    (checkPassed (checkAssetCoverage s f.coverage
        (checkDataFreshness s f.freshness
          (checkDataCompleteness s f.completeness initValidationResults))).completeness &&
      checkPassed (checkAssetCoverage s f.coverage
        (checkDataFreshness s f.freshness
          (checkDataCompleteness s f.completeness initValidationResults))).freshness &&
      checkPassed (checkAssetCoverage s f.coverage
        (checkDataFreshness s f.freshness
          (checkDataCompleteness s f.completeness initValidationResults))).asset_coverage)
  rw [checkAssetCoverage_completeness, checkAssetCoverage_completeness,
    checkAssetCoverage_freshness, checkAssetCoverage_freshness,
    checkDataQuality_completeness, checkDataQuality_freshness,
    checkAssetCoverage_asset_coverage_ext s f.coverage
      (checkDataQuality s fq (checkDataFreshness s f.freshness
        (checkDataCompleteness s f.completeness initValidationResults)))
      (checkDataFreshness s f.freshness
        (checkDataCompleteness s f.completeness initValidationResults))]

/-- Claim C5: the quality check always records `passed = true` and never
appends an error; a query exception yields `passed = true` with the exception
text as `details` plus a warning; a high null ratio appends a warning (and
nothing else). -/
theorem quality_check_always_passes (s : Storage) (r : ValidationResults) :
    (∀ fault : Option String,
      checkPassed (checkDataQuality s fault r).quality = true ∧
      (checkDataQuality s fault r).quality.isSome = true ∧
      (checkDataQuality s fault r).errors = r.errors) ∧
    (∀ e : String,
      (checkDataQuality s (some e) r).quality = some ⟨true, e⟩ ∧
      (checkDataQuality s (some e) r).warnings =
        r.warnings ++ [s!"Quality check error: {e}"]) ∧
    ((checkDataQuality s none r).warnings =
      r.warnings ++
        (if MAX_MISSING_RATIO < nullRatio s then [s!"High null ratio: {nullRatio s}"]
         else [])) := by
  refine ⟨?_, ?_, ?_⟩
  · intro fault
    cases fault with
    | some e => exact ⟨rfl, rfl, rfl⟩
    | none =>
      simp only [checkDataQuality]
      split_ifs <;> exact ⟨rfl, rfl, rfl⟩
  · intro e
    exact ⟨rfl, rfl⟩
  · simp only [checkDataQuality]
    rcases le_or_lt (nullRatio s) MAX_MISSING_RATIO with h | h
    · rw [if_pos h, if_neg (not_lt.mpr h)]
      simp
    · rw [if_neg (not_le.mpr h), if_pos h]

/-- Claim C6 counterexample: a storage state with one NULL-close row older
than the 7-day window and one non-NULL row inside it.  The code's ratio is
`1` (the NULL row is counted although it is outside the window), while the
windowed ratio the claim describes is `0`. -/
theorem null_ratio_counterexample :
    nullRatio (Storage.mk [PriceRow.mk 200 true, PriceRow.mk 1 false] 50) = 1 ∧
    specWindowedNullRatio (Storage.mk [PriceRow.mk 200 true, PriceRow.mk 1 false] 50) = 0 ∧
    nullRatio (Storage.mk [PriceRow.mk 200 true, PriceRow.mk 1 false] 50) ≠
      specWindowedNullRatio (Storage.mk [PriceRow.mk 200 true, PriceRow.mk 1 false] 50) := by
  have e1 : nullRatio (Storage.mk [PriceRow.mk 200 true, PriceRow.mk 1 false] 50) = 1 := by
    unfold nullRatio
    rw [show qualityTotalCount (Storage.mk [PriceRow.mk 200 true, PriceRow.mk 1 false] 50) = 1
          from by decide,
        show nullCloseCount (Storage.mk [PriceRow.mk 200 true, PriceRow.mk 1 false] 50) = 1
          from by decide]
    norm_num
  have e2 : specWindowedNullRatio (Storage.mk [PriceRow.mk 200 true, PriceRow.mk 1 false] 50) = 0 := by
    simp only [specWindowedNullRatio]
    rw [show ([PriceRow.mk 200 true, PriceRow.mk 1 false].filter
          (fun r => decide (r.ageHours ≤ 168))) = [PriceRow.mk 1 false] from by decide]
    norm_num
  exact ⟨e1, e2, by rw [e1, e2]; norm_num⟩

/-- Claim C6 amended: the quality check's null ratio divides the count of
NULL-close rows over the *entire* table by the count of rows inside the
trailing 7-day window (with an empty window counted as `1`), and the check
appends a warning exactly when that ratio exceeds `MAX_MISSING_RATIO`. -/
theorem null_ratio_formula (s : Storage) (r : ValidationResults) :
    nullRatio s =
      ((s.rows.filter (fun x => x.closeIsNull)).length : ℚ) /
        ((if (s.rows.filter (fun x => decide (x.ageHours ≤ 168))).length = 0 then 1
          else ((s.rows.filter (fun x => decide (x.ageHours ≤ 168))).length : ℚ))) ∧
    ((checkDataQuality s none r).warnings ≠ r.warnings ↔
      MAX_MISSING_RATIO < nullRatio s) := by
  constructor
  · rw [nullRatio, if_pos (qualityTotalCount_pos s)]
    unfold qualityTotalCount recentCount nullCloseCount
    split_ifs with h
    · norm_num
    · rfl
  · simp only [checkDataQuality]
    split_ifs with h
    · constructor
      · intro hne
        exact absurd rfl hne
      · intro hlt
        exact absurd hlt (not_lt.mpr h)
    · constructor
      · intro _
        exact lt_of_not_le h
      · intro _ heq
        have := congrArg List.length heq
        simp at this

/-- Claim C7: the freshness check passes iff rows exist and the age of the
most recent timestamp is at most 48 hours (closed boundary: exactly 48 hours
passes, one second more fails); with no rows it records `passed = false`
with the no-data detail and appends an error. -/
theorem freshness_check_boundary (s : Storage) (activeN : Nat)
    (r : ValidationResults) :
    (checkPassed (checkDataFreshness s none r).freshness =
      (match latestAgeHours s with
       | some a => decide (a ≤ 48)
       | none => false)) ∧
    ((checkDataFreshness (Storage.mk [] activeN) none r).freshness =
        some ⟨false, "No data found in price_history"⟩ ∧
      (checkDataFreshness (Storage.mk [] activeN) none r).errors =
        r.errors ++ ["No data in price_history table"]) ∧
    (checkPassed
      (checkDataFreshness (Storage.mk [PriceRow.mk 48 false] activeN) none r).freshness
        = true) ∧
    (checkPassed
      (checkDataFreshness (Storage.mk [PriceRow.mk (48 + 1/3600) false] activeN) none
        r).freshness = false) := by
  refine ⟨?_, ⟨rfl, rfl⟩, ?_, ?_⟩
  · cases hl : latestAgeHours s with
    | none => simp only [checkDataFreshness, hl]; rfl
    | some a =>
      simp only [checkDataFreshness, hl]
      split_ifs with h
      · simp [checkPassed, h]
      · simp [checkPassed, h]
  · have hl3 : latestAgeHours (Storage.mk [PriceRow.mk 48 false] activeN) = some 48 := rfl
    simp only [checkDataFreshness, hl3]
    rw [if_pos (by norm_num : ((48 : ℚ) ≤ 48))]
    rfl
  · have hl4 : latestAgeHours (Storage.mk [PriceRow.mk (48 + 1/3600) false] activeN) =
        some (48 + 1/3600) := rfl
    simp only [checkDataFreshness, hl4]
    rw [if_neg (by norm_num : ¬((48 : ℚ) + 1/3600 ≤ 48))]
    rfl

/-! ## Main orchestration (`daily_eod_pipeline.py`, lines 378-432) -/

/-- `main()` (lines 378-419): fetch active assets; if the list is empty,
return `False` with no ingestion and no validation; otherwise run ingestion
from a fresh orchestrator, run validation from a fresh validator, and return
the validation verdict together with the stats and the report. -/
def mainRun (fetch : Nat → GroupOutcome) (assets : List Asset) (s : Storage)
    (f : QueryFaults) : Bool × Option IngestionStats × Option ValidationResults :=
  if assets.isEmpty then (false, none, none)
  else
    let stats := ingestDailyData fetch assets initStats
    let v := validateAll s f
    (v.passed, some stats, some v)

/-! ### Claim theorems C8 -/

/-- Claim C8 counterexample: `ingest_daily_data` invoked with an empty asset
list raises nothing and returns the all-zero stats unchanged — a silent
success, not a reported precondition failure (the embedded function is total
and has no error channel, mirroring the source, which has no emptiness
check). -/
theorem ingest_empty_list_silent :
    ingestDailyData (fun _ => GroupOutcome.raised) [] initStats = initStats := by
  simp [ingestDailyData, fetchGroups, chunksOf, runGroups, initStats]

/-- Claim C8 amended: the empty-list precondition is enforced by `main`, not
by `ingest_daily_data`: `main` returns failure without invoking ingestion or
validation when the active-asset list is empty, while `ingest_daily_data`
itself completes silently with its stats unchanged (all zero from a fresh
orchestrator) on an empty list. -/
theorem empty_assets_handled_by_main (fetch : Nat → GroupOutcome) (s : Storage)
    (f : QueryFaults) :
    mainRun fetch [] s f = (false, none, none) ∧
    ingestDailyData fetch [] initStats = initStats := by
  constructor
  · rfl
  · simp [ingestDailyData, fetchGroups, chunksOf, runGroups, initStats]

/-! ## Pipeline service (`pipeline_service.py`, lines 29-209) -/

/-- `PipelineStatus` (lines 29-38). -/
inductive PipelineStatus where
  | idle
  | running
  | validating
  | computing
  | caching
  | completed
  | failed
  | paused
deriving Repr, DecidableEq

/-- `_tier1_ingestion` (lines 121-135): the `try` body only logs and assigns
a metric, so the method always returns `True`. -/
def tier1Ingestion : Bool := true

/-- `_tier2_validation` (lines 137-153): always returns `True`. -/
def tier2Validation : Bool := true

/-- `_tier3_analytics` (lines 155-180): always returns `True`. -/
def tier3Analytics : Bool := true

/-- `_tier4_cache` (lines 182-197): always returns `True`. -/
def tier4Cache : Bool := true

/-- `run_pipeline` (lines 57-119) with the four tier outcomes abstracted as
booleans: the list of statuses assigned to `self.status` during the run, in
order, paired with the `"status"` field of the returned dict.  A `False`
tier raises, and the `except` handler sets `FAILED`. -/
def runPipelineTrace (t1 t2 t3 t4 : Bool) : List PipelineStatus × String :=
  if t1 then
    if t2 then
      if t3 then
        if t4 then
          ([.running, .validating, .computing, .caching, .completed], "success")
        else ([.running, .validating, .computing, .caching, .failed], "failed")
      else ([.running, .validating, .computing, .failed], "failed")
    else ([.running, .validating, .failed], "failed")
  else ([.running, .failed], "failed")

/-- The actual `run_pipeline`, with the tier methods as implemented. -/
def runPipeline : List PipelineStatus × String :=
  runPipelineTrace tier1Ingestion tier2Validation tier3Analytics tier4Cache

/-! ### Claim theorems C9 -/

/-- Claim C9 counterexample: the actual `run_pipeline` enters the status
`COMPUTING` (and also `CACHING`), which is outside the claimed set
`{IDLE, RUNNING, VALIDATING, COMPLETED, FAILED}`. -/
theorem run_pipeline_enters_computing :
    PipelineStatus.computing ∈ runPipeline.1 ∧
    PipelineStatus.computing ∉ [PipelineStatus.idle, PipelineStatus.running,
      PipelineStatus.validating, PipelineStatus.completed, PipelineStatus.failed] := by
  decide

/-- Claim C9 amended: under every combination of tier outcomes,
`run_pipeline` follows the path
`RUNNING → VALIDATING → COMPUTING → CACHING → {COMPLETED | FAILED}`
(possibly entering `FAILED` after any prefix), every status entered lies in
`{RUNNING, VALIDATING, COMPUTING, CACHING, COMPLETED, FAILED}`, and `PAUSED`
(and `IDLE`) is never entered by the controller itself. -/
theorem run_pipeline_status_paths (t1 t2 t3 t4 : Bool) :
    (runPipelineTrace t1 t2 t3 t4).1 ∈ [
      [PipelineStatus.running, PipelineStatus.failed],
      [PipelineStatus.running, PipelineStatus.validating, PipelineStatus.failed],
      [PipelineStatus.running, PipelineStatus.validating, PipelineStatus.computing,
        PipelineStatus.failed],
      [PipelineStatus.running, PipelineStatus.validating, PipelineStatus.computing,
        PipelineStatus.caching, PipelineStatus.failed],
      [PipelineStatus.running, PipelineStatus.validating, PipelineStatus.computing,
        PipelineStatus.caching, PipelineStatus.completed]] ∧
    (∀ st ∈ (runPipelineTrace t1 t2 t3 t4).1,
      st ∈ [PipelineStatus.running, PipelineStatus.validating,
        PipelineStatus.computing, PipelineStatus.caching,
        PipelineStatus.completed, PipelineStatus.failed]) ∧
    PipelineStatus.paused ∉ (runPipelineTrace t1 t2 t3 t4).1 ∧
    PipelineStatus.idle ∉ (runPipelineTrace t1 t2 t3 t4).1 := by
  revert t1 t2 t3 t4
  decide

/-! ## Rate limiter (`yfinance_client.py`) -/

/-- `YFinanceConfig` (lines 25-36), with the delay as an exact rational. -/
structure YFinanceConfig where
  auto_adjust : Bool
  repair : Bool
  keepna : Bool
  timeout : Nat
  threads : Bool
  delay_between_requests : ℚ
  respect_server : Bool
deriving Repr, DecidableEq

/-- The rate-limit wait performed before each outbound request, identical in
`fetch_historical_data` (lines 143-154) and `fetch_batch_multi`
(lines 221-230): read the loop clock (`now`), and if less than
`delay` has elapsed since `last` (the recorded last request time), sleep for
the remainder.  Modelling `asyncio.sleep d` as advancing the loop clock by
exactly `d`, the returned value is the clock reading stored back into
`last_request_time`, at which the request is issued.  With `respect_server`
disabled no wait happens and the request is issued at `now`. -/
def rateLimitedRequestTime (respect : Bool) (delay last now : ℚ) : ℚ :=
  if respect then (if now - last < delay then last + delay else now) else now

/-- The updated `last_request_time` after one request: only written when
`respect_server` is enabled. -/
def nextLastRequestTime (respect : Bool) (delay last now : ℚ) : ℚ :=
  if respect then rateLimitedRequestTime respect delay last now else last

/-- Issue times of a sequence of outbound requests by one client instance,
given the pre-request loop-clock readings `nows` and the initial
`last_request_time` (`0.0` on construction, line 58). -/
def requestTimes (respect : Bool) (delay : ℚ) : ℚ → List ℚ → List ℚ
  | _, [] => []
  | last, now :: rest =>
    rateLimitedRequestTime respect delay last now ::
      requestTimes respect delay (nextLastRequestTime respect delay last now) rest

theorem rateLimitedRequestTime_gap (delay last now : ℚ) :
    delay ≤ rateLimitedRequestTime true delay last now - last := by
  unfold rateLimitedRequestTime
  simp only [if_true]
  split_ifs with h
  · simp
  · linarith [not_lt.mp h]

theorem nextLastRequestTime_true (delay last now : ℚ) :
    nextLastRequestTime true delay last now = rateLimitedRequestTime true delay last now := by
  unfold nextLastRequestTime
  simp

theorem requestTimes_head_gap (delay : ℚ) (rest : List ℚ) (last h : ℚ)
    (hh : (requestTimes true delay last rest).head? = some h) :
    delay ≤ h - last := by
  cases rest with
  | nil => simp [requestTimes] at hh
  | cons now tl =>
    simp only [requestTimes, List.head?_cons, Option.some.injEq] at hh
    rw [← hh]
    exact rateLimitedRequestTime_gap delay last now

theorem requestTimes_chain (delay : ℚ) :
    ∀ (nows : List ℚ) (last : ℚ),
      List.Chain' (fun a b => delay ≤ b - a) (requestTimes true delay last nows) := by
  intro nows
  induction nows with
  | nil => intro last; simp [requestTimes]
  | cons now tl ih =>
    intro last
    simp only [requestTimes]
    rw [List.chain'_cons']
    constructor
    · intro y hy
      have := requestTimes_head_gap delay tl (nextLastRequestTime true delay last now) y
        (by simpa using hy)
      rwa [nextLastRequestTime_true] at this
    · exact ih _

/-! ### Claim theorem C10 -/

/-- Claim C10: with `respect_server` enabled, every pair of consecutive
outbound requests issued by one client instance is separated by at least the
configured `delay_between_requests`: before each request the client computes
the elapsed time since the recorded last request time and sleeps until the
minimum delay has passed (modelling the event-loop clock as monotone and
`asyncio.sleep` as advancing it by the requested duration). -/
theorem rate_limiter_min_gap (cfg : YFinanceConfig) (last : ℚ) (nows : List ℚ)
    (h : cfg.respect_server = true) :
    List.Chain' (fun a b => cfg.delay_between_requests ≤ b - a)
      (requestTimes cfg.respect_server cfg.delay_between_requests last nows) := by
  rw [h]
  exact requestTimes_chain cfg.delay_between_requests nows last

/-- Witness for C10 at a concrete configuration (delay 60, respect enabled)
and three clock readings. -/
theorem rate_limiter_min_gap_witness :
    (YFinanceConfig.mk true true false 30 false 60 true).respect_server = true ∧
    List.Chain'
      (fun a b => (YFinanceConfig.mk true true false 30 false 60 true).delay_between_requests ≤ b - a)
      (requestTimes (YFinanceConfig.mk true true false 30 false 60 true).respect_server
        (YFinanceConfig.mk true true false 30 false 60 true).delay_between_requests
        0 [10, 30, 200]) :=
  ⟨rfl, rate_limiter_min_gap (YFinanceConfig.mk true true false 30 false 60 true)
    0 [10, 30, 200] rfl⟩

end FinancialIntel
